import Mathlib

set_option maxRecDepth 40000

/-
  Verification development for the research-workflow engine of the
  FIA_AgentesIA-App repository.

  The repository contains two implementations of the same three-stage
  pipeline (extract_tools → research → analyze):
    * src/Agente_IA_Workflow/src/{models,prompts,firecrawl,workflow}.py
      (class Workflow), embedded below in namespace AgenteIAWorkflow;
    * src/agents/workflow_agent.py (class WorkflowAgent), embedded below
      in namespace AgentsWorkflowAgent.

  External collaborators (the Firecrawl SDK and the OpenAI chat model)
  are modelled as an explicit behaviour record `Collaborators` whose raw
  calls may fail (`Except Unit _` mirrors "raises an exception").
  Python exceptions that can escape a step function are made explicit as
  `Except PyError _` results; steps that cannot raise are total.
-/

/-- One loosely-typed search-result record (a Python dict).  Fields the
code reads through `.get` with a default are modelled as `Option`. -/
structure SearchResult where
  url : Option String := none
  markdown : Option String := none
  metadataTitle : Option String := none
  title : Option String := none
  deriving Repr, DecidableEq

/-- A scraped document as returned by the Firecrawl SDK (`result.markdown`). -/
structure ScrapedDoc where
  markdown : String
  deriving Repr, DecidableEq

/-- models.py / workflow_agent.py `CompanyAnalysis` (pydantic BaseModel);
the two modules declare it with identical fields and defaults. -/
structure CompanyAnalysis where
  pricing_model : String
  is_open_source : Option Bool := none
  tech_stack : List String := []
  description : String := ""
  api_available : Option Bool := none
  language_support : List String := []
  integration_capabilities : List String := []
  deriving Repr, DecidableEq

/-- models.py / workflow_agent.py `CompanyInfo` (pydantic BaseModel);
identical in both modules. -/
structure CompanyInfo where
  name : String
  description : String
  website : String
  pricing_model : Option String := none
  is_open_source : Option Bool := none
  tech_stack : List String := []
  competitors : List String := []
  api_available : Option Bool := none
  language_support : List String := []
  integration_capabilities : List String := []
  developer_experience_rating : Option String := none
  deriving Repr, DecidableEq

/-- models.py / workflow_agent.py `ResearchState` (pydantic BaseModel);
`search_results` is `List[Dict[str, Any]]` in the source, modelled here
with the same record type used for search hits. -/
structure ResearchState where
  query : String
  extracted_tools : List String := []
  companies : List CompanyInfo := []
  search_results : List SearchResult := []
  analysis : Option String := none
  deriving Repr, DecidableEq

/-- The Python exceptions that can escape a workflow step. -/
inductive PyError where
  /-- `AttributeError`: reading `.data` on the plain `[]` list that
  `FirecrawlService.search_companies` returns when the SDK call raises. -/
  | attributeError
  /-- `IndexError`: `data[0]` on an empty result list. -/
  | indexError
  /-- an exception from an LLM call left uncaught by the step. -/
  | llmError
  deriving Repr, DecidableEq

/-- What a caller of `FirecrawlService.search_companies` receives: either
the SDK's response object (truthy, carrying a `.data` list) or the plain
empty Python list the service returns from its `except` branch. -/
inductive SearchOutcome where
  | response (data : List SearchResult)
  | errorFallback
  deriving Repr, DecidableEq

/-- Python `search_results.data`: an `AttributeError` on the `[]` fallback. -/
def SearchOutcome.dataAttr : SearchOutcome → Except PyError (List SearchResult)
  | .response d => Except.ok d
  | .errorFallback => Except.error PyError.attributeError

/-- Python truthiness of the value: the SDK response object (a pydantic
model) is always truthy, the `[]` fallback is falsy. -/
def SearchOutcome.isTruthy : SearchOutcome → Bool
  | .response _ => true
  | .errorFallback => false

/-- Behaviour of the external collaborators for one pipeline run.  The raw
SDK / LLM calls may raise (`Except.error ()`); everything the repository
layers on top of them is defined below from the source. -/
structure Collaborators where
  /-- `FirecrawlApp.search` (already-augmented query, `limit`). -/
  rawSearch : String → Nat → Except Unit (List SearchResult)
  /-- `FirecrawlApp.scrape_url`. -/
  rawScrape : String → Except Unit ScrapedDoc
  /-- `ChatOpenAI.invoke` on `[SystemMessage, HumanMessage]`, returning
  `response.content` (arguments: system content, human content). -/
  llmInvoke : String → String → Except Unit String
  /-- `llm.with_structured_output(CompanyAnalysis).invoke` on the same
  message shape. -/
  structuredInvoke : String → String → Except Unit CompanyAnalysis

/-- Drop leading whitespace characters from a character list. -/
def dropLeadingWS : List Char → List Char
  | [] => []
  | c :: cs => if c.isWhitespace then dropLeadingWS cs else c :: cs

/-- Python `str.strip`: drop leading and trailing whitespace. -/
def pyStrip (s : String) : String :=
  String.mk ((dropLeadingWS ((dropLeadingWS s.data).reverse)).reverse)

/-- Helper for `pySplit`: accumulates the current field (reversed). -/
def pySplitAux (sep : Char) : List Char → List Char → List String
  | [], acc => [String.mk acc.reverse]
  | c :: cs, acc =>
    if c = sep then String.mk acc.reverse :: pySplitAux sep cs []
    else pySplitAux sep cs (c :: acc)

/-- Python `str.split(sep)` for a one-character separator
(`"".split(sep) == [""]`, separators delimit possibly-empty fields). -/
def pySplit (sep : Char) (s : String) : List String :=
  pySplitAux sep s.data []

/-- Python prefix slicing `s[:n]`. -/
def pySlice (s : String) (n : Nat) : String := String.mk (s.data.take n)

/-- The tool-name parse in both `_extract_tools_step`s:
`[name.strip() for name in content.strip().split("\n") if name.strip()]`. -/
def parseToolNames (content : String) : List String :=
  ((pySplit '\n' (pyStrip content)).map pyStrip).filter (fun name => name ≠ "")

/-- JSON rendering of a string (escaping of special characters is not
modelled; no property below depends on it). -/
def jsonString (s : String) : String := "\"" ++ s ++ "\""

/-- JSON rendering of an optional string. -/
def jsonOptString : Option String → String
  | none => "null"
  | some s => jsonString s

/-- JSON rendering of an optional boolean. -/
def jsonOptBool : Option Bool → String
  | none => "null"
  | some true => "true"
  | some false => "false"

/-- JSON rendering of a list of strings. -/
def jsonListString (l : List String) : String :=
  "[" ++ String.intercalate ", " (l.map jsonString) ++ "]"

/-- pydantic serialization of a `CompanyInfo` (`company.json()` in
workflow.py, `company.model_dump_json()` in workflow_agent.py). -/
def CompanyInfo.json (ci : CompanyInfo) : String :=
  "\x7b\"name\": " ++ jsonString ci.name ++
  ", \"description\": " ++ jsonString ci.description ++
  ", \"website\": " ++ jsonString ci.website ++
  ", \"pricing_model\": " ++ jsonOptString ci.pricing_model ++
  ", \"is_open_source\": " ++ jsonOptBool ci.is_open_source ++
  ", \"tech_stack\": " ++ jsonListString ci.tech_stack ++
  ", \"competitors\": " ++ jsonListString ci.competitors ++
  ", \"api_available\": " ++ jsonOptBool ci.api_available ++
  ", \"language_support\": " ++ jsonListString ci.language_support ++
  ", \"integration_capabilities\": " ++ jsonListString ci.integration_capabilities ++
  ", \"developer_experience_rating\": " ++ jsonOptString ci.developer_experience_rating ++
  "\x7d"

namespace AgenteIAWorkflow

/-- prompts.py `DeveloperToolsPrompts.TOOL_EXTRACTION_SYSTEM`. -/
def TOOL_EXTRACTION_SYSTEM : String :=
  "Você é um pesquisador de preços, promoções, ofertas e valores. Extraia nomes específicos de ferramentas, bibliotecas, plataformas ou serviços de artigos.\nConcentre-se em produtos/ferramentas/soluções/serviços reais que consumidores demnonstrem interesse e podem usar."

/-- prompts.py `DeveloperToolsPrompts.tool_extraction_user` (f-string). -/
def tool_extraction_user (query content : String) : String :=
  "Query: " ++ query ++ "\n                Conteúdo do Artigo: " ++ content ++
  "\n\n                Extraia uma lista de nomes de produtos/ferramentas/soluções/serviços específicos mencionados neste conteúdo que sejam relevantes para \"" ++ query ++
  "\".\n\n                Rules:\n                - Incluir apenas nomes de produtos reais, sem termos genéricos\n                - Foco em ferramentas/soluções/serviços que os consumidores podem comprar, obter, assinar, usar e consumir diretamente\n                - Incluir opções comerciais e de código aberto\n                - Limitar às 5 resultados mais relevantes\n                - Retornar apenas os nomes dos produtos/ferramentas/soluções/serviços, um por linha, sem descrições\n                Formato de exemplo:\n                Amazon\n                MercadoLivre\n                Picpay\n                Nubank\n                Microsoft\n                IBM\n                Carrefour\n                Ifood\n                OpenAI\n                Groq\n                "

/-- prompts.py `DeveloperToolsPrompts.TOOL_ANALYSIS_SYSTEM`. -/
def TOOL_ANALYSIS_SYSTEM : String :=
  "Você está analisando preços, promoções, ofertas e valores de produtos/ferramentas/soluções/serviços com base na categoria informada pelo usuário.\nConcentre-se em extrair informações relevantes para consumidores de produtos/ferramentas/soluções/serviços.\nPreste atenção especial nas condições, descontos, modelo comercial, pré-requisitos, tecnologia, APIs, SDKs e modos de utilização para compra, obtenção, assinatura, uso e consumo."

/-- prompts.py `DeveloperToolsPrompts.tool_analysis_user`; note the
`content[:2500]` truncation happens here, inside the prompt template. -/
def tool_analysis_user (company_name content : String) : String :=
  "Empresa/Ferramenta: " ++ company_name ++
  "\n                Conteúdo do Website: " ++ pySlice content 2500 ++
  "\n\n                Analise este conteúdo da perspectiva de um consumidor e forneça:\n                - pricing_model: \"Gratuito\", \"Freemium\", \"Pago\", \"Empresarial\", \"Assinatura\" ou \"Desconhecido\"\n                - is_open_source: verdadeiro se for de código aberto, falso se for proprietário, nulo se não estiver claro\n                - tech_stack: tecnologia adotada para produtos/ferramentas/soluções/serviços oferecido\n                - description: breve descrição de uma frase com foco no que esta produtos/ferramentas/soluções/serviços entrega para o consumidor\n                - api_available: verdadeiro se API REST, GraphQL, SDK ou acesso programático forem mencionados\n                - language_support: Lista de linguagens de programação explicitamente suportadas (ex.: Python, JavaScript, Go, etc.)\n                - integration_capabilities: Lista de ferramentas/plataformas com as quais se integra (ex.: GitHub, VS Code, Docker, AWS, etc.)\n                Foco em recursos relevantes para o consumidor, como produtos/ferramentas/soluções/serviços, bem como modos de uso, integrações com APIs, SDKs, suporte a idiomas, integrações e modos de utlização para compra, obtenção, assinatura, uso e consumo."

/-- prompts.py `DeveloperToolsPrompts.RECOMMENDATIONS_SYSTEM`. -/
def RECOMMENDATIONS_SYSTEM : String :=
  "Você é um pesquisador sênior que fornece recomendações técnicas rápidas e concisas.\n    Mantenha as respostas breves e práticas - no máximo 3 a 4 frases no total.."

/-- prompts.py `DeveloperToolsPrompts.recommendations_user`. -/
def recommendations_user (query company_data : String) : String :=
  "Consumer Query: " ++ query ++
  "\n                Ferramentas/Tecnologias Analisadas: " ++ company_data ++
  "\n\n                Forneça uma breve recomendação (máximo de 3 a 4 frases) abrangendo:\n                - Qual ferramenta é a melhor e por quê\n                - Principais considerações sobre custo/preço\n                - Principal vantagem técnica\n                - A melhor oferta, preços e condições\n\n                Não são necessárias longas explicações."

/-- firecrawl.py `FirecrawlService.search_companies`: augments the query
(with a trailing space), calls the SDK, and on any exception returns the
plain empty list as fallback. -/
def search_companies (c : Collaborators) (query : String) (num_results : Nat) :
    SearchOutcome :=
  match c.rawSearch (query ++ " preços, ofertas e valores ") num_results with
  | Except.ok result => SearchOutcome.response result
  | Except.error _ => SearchOutcome.errorFallback

/-- firecrawl.py `FirecrawlService.scrape_company_pages`: returns the
scraped document, or `None` when the SDK call raises. -/
def scrape_company_pages (c : Collaborators) (url : String) : Option ScrapedDoc :=
  match c.rawScrape url with
  | Except.ok result => some result
  | Except.error _ => none

/-- The scrape loop of workflow.py `Workflow._extract_tools_step`
(lines 87-94).  Line 94 reads
`all_content + scraped.markdown[:1500] + "\n\n"` — an expression
statement whose value is discarded, so the accumulator is never updated;
the recursion below passes `all_content` through unchanged on both
branches, exactly as the source does. -/
def extractContentLoop (c : Collaborators) :
    List SearchResult → String → String
  | [], all_content => all_content
  | result :: rest, all_content =>
    let url := result.url.getD ""
    match scrape_company_pages c url with
    | some _scraped => extractContentLoop c rest all_content
    | none => extractContentLoop c rest all_content

/-- workflow.py `Workflow._extract_tools_step`.  The search and the scrape
loop run outside the `try` block; only the LLM call is guarded, so the
`AttributeError` raised by `search_results.data` on the `[]` fallback
escapes the step. -/
def extract_tools_step (c : Collaborators) (state : ResearchState) :
    Except PyError (List String) :=
  let article_query := state.query ++ " comparação de melhores alternativas para produtos/ferramentas/soluções/serviços"
  let search_results := search_companies c article_query 3
  match search_results.dataAttr with
  | Except.error e => Except.error e
  | Except.ok data =>
    let all_content := extractContentLoop c data ""
    match c.llmInvoke TOOL_EXTRACTION_SYSTEM
        (tool_extraction_user state.query all_content) with
    | Except.ok content => Except.ok (parseToolNames content)
    | Except.error _ => Except.ok []

/-- workflow.py `Workflow._analyze_company_content`: structured LLM call;
on any exception returns the sentinel analysis
(`pricing_model="Unknown"`, `description="Falhou"`, optional fields
unset, lists empty). -/
def analyze_company_content (c : Collaborators) (company_name content : String) :
    CompanyAnalysis :=
  match c.structuredInvoke TOOL_ANALYSIS_SYSTEM
      (tool_analysis_user company_name content) with
  | Except.ok analysis => analysis
  | Except.error _ =>
    { pricing_model := "Unknown"
      is_open_source := none
      tech_stack := []
      description := "Falhou"
      api_available := none
      language_support := []
      integration_capabilities := [] }

/-- The per-candidate body of workflow.py `Workflow._research_step`
(lines 177-215).  `if tool_search_results:` is false only for the `[]`
fallback (skip); a truthy response with an empty `data` list reaches
`tool_search_results.data[0]` and raises `IndexError`. -/
def processCandidate (c : Collaborators) (tool_name : String) :
    Except PyError (Option CompanyInfo) :=
  match search_companies c (tool_name ++ " site oficial") 1 with
  | SearchOutcome.errorFallback => Except.ok none
  | SearchOutcome.response [] => Except.error PyError.indexError
  | SearchOutcome.response (result :: _) =>
    let url := result.url.getD ""
    let company : CompanyInfo :=
      { name := tool_name
        description := result.markdown.getD ""
        website := url
        tech_stack := []
        competitors := [] }
    match scrape_company_pages c url with
    | none => Except.ok (some company)
    | some scraped =>
      let content := scraped.markdown
      let analysis := analyze_company_content c company.name content
      Except.ok (some
        { company with
          pricing_model := some analysis.pricing_model
          is_open_source := analysis.is_open_source
          tech_stack := analysis.tech_stack
          description := analysis.description
          api_available := analysis.api_available
          language_support := analysis.language_support
          integration_capabilities := analysis.integration_capabilities })

/-- The `for tool_name in tool_names` loop of `Workflow._research_step`:
skipped candidates append nothing, and an exception from any candidate
aborts the whole stage. -/
def researchLoop (c : Collaborators) : List String → Except PyError (List CompanyInfo)
  | [] => Except.ok []
  | tool_name :: rest =>
    match processCandidate c tool_name with
    | Except.error e => Except.error e
    | Except.ok none => researchLoop c rest
    | Except.ok (some company) =>
      match researchLoop c rest with
      | Except.error e => Except.error e
      | Except.ok tail => Except.ok (company :: tail)

/-- The fallback candidate derivation of `Workflow._research_step`
(lines 163-166): `result.get("metadata", {}).get("title", "Unknown")`. -/
def fallback_tool_names (data : List SearchResult) : List String :=
  data.map (fun result => result.metadataTitle.getD "Unknown")

/-- workflow.py `Workflow._research_step`.  When `extracted_tools` is
empty it falls back to a direct search on the original query
(`num_results=4`) and reads `.data` on the outcome — again an
`AttributeError` if the search returned its `[]` fallback.  Otherwise it
takes the first 4 extracted tools. -/
def research_step (c : Collaborators) (state : ResearchState) :
    Except PyError (List CompanyInfo) :=
  match (if state.extracted_tools.isEmpty then
          (search_companies c state.query 4).dataAttr.map fallback_tool_names
         else Except.ok (state.extracted_tools.take 4)) with
  | Except.error e => Except.error e
  | Except.ok tool_names => researchLoop c tool_names

/-- workflow.py `Workflow._analyze_step`.  There is no `try` block around
the LLM call: a generator failure propagates out of the step. -/
def analyze_step (c : Collaborators) (state : ResearchState) :
    Except PyError String :=
  let company_data :=
    String.intercalate ", " (state.companies.map CompanyInfo.json)
  match c.llmInvoke RECOMMENDATIONS_SYSTEM
      (recommendations_user state.query company_data) with
  | Except.ok content => Except.ok content
  | Except.error _ => Except.error PyError.llmError

/-- workflow.py `Workflow.run`: builds the initial state from the query
and threads the three stage updates through the LangGraph state
(`extract_tools → research → analyze`); no stage writes `query` or
`search_results`. -/
def run (c : Collaborators) (query : String) : Except PyError ResearchState :=
  match extract_tools_step c { query := query } with
  | Except.error e => Except.error e
  | Except.ok extracted_tools =>
    match research_step c { query := query, extracted_tools := extracted_tools } with
    | Except.error e => Except.error e
    | Except.ok companies =>
      match analyze_step c { query := query, extracted_tools := extracted_tools,
                             companies := companies } with
      | Except.error e => Except.error e
      | Except.ok analysis =>
        Except.ok { query := query
                    extracted_tools := extracted_tools
                    companies := companies
                    analysis := some analysis }

end AgenteIAWorkflow

namespace AgentsWorkflowAgent

/-- workflow_agent.py `DeveloperToolsPrompts.TOOL_EXTRACTION_SYSTEM`. -/
def TOOL_EXTRACTION_SYSTEM : String :=
  "Você é um pesquisador de preços, promoções, ofertas e valores. Extraia nomes específicos de ferramentas, bibliotecas, plataformas ou serviços de artigos.\nConcentre-se em produtos/ferramentas/soluções/serviços reais que consumidores demonstrem interesse e podem usar."

/-- workflow_agent.py `DeveloperToolsPrompts.tool_extraction_user`. -/
def tool_extraction_user (query content : String) : String :=
  "Query: " ++ query ++ "\nConteúdo do Artigo: " ++ content ++
  "\n\nExtraia uma lista de nomes de produtos/ferramentas/soluções/serviços específicos mencionados neste conteúdo que sejam relevantes para \"" ++ query ++
  "\".\n\nRules:\n- Incluir apenas nomes de produtos reais, sem termos genéricos\n- Foco em ferramentas/soluções/serviços que os consumidores podem comprar, obter, assinar, usar e consumir diretamente\n- Incluir opções comerciais e de código aberto\n- Limitar às 5 resultados mais relevantes\n- Retornar apenas os nomes dos produtos/ferramentas/soluções/serviços, um por linha, sem descrições\n\nFormato de exemplo:\nAmazon\nMercadoLivre\nPicpay\nNubank\nMicrosoft\n"

/-- workflow_agent.py `DeveloperToolsPrompts.TOOL_ANALYSIS_SYSTEM`. -/
def TOOL_ANALYSIS_SYSTEM : String :=
  "Você está analisando preços, promoções, ofertas e valores de produtos/ferramentas/soluções/serviços com base na categoria informada pelo usuário.\nConcentre-se em extrair informações relevantes para consumidores de produtos/ferramentas/soluções/serviços.\nPreste atenção especial nas condições, descontos, modelo comercial, pré-requisitos, tecnologia, APIs, SDKs e modos de utilização."

/-- workflow_agent.py `DeveloperToolsPrompts.tool_analysis_user`; the
`content[:2500]` truncation again lives in the template. -/
def tool_analysis_user (company_name content : String) : String :=
  "Empresa/Ferramenta: " ++ company_name ++
  "\nConteúdo do Website: " ++ pySlice content 2500 ++
  "\n\nAnalise este conteúdo da perspectiva de um consumidor e forneça:\n- pricing_model: \"Gratuito\", \"Freemium\", \"Pago\", \"Empresarial\", \"Assinatura\" ou \"Desconhecido\"\n- is_open_source: verdadeiro se for de código aberto, falso se for proprietário, nulo se não estiver claro\n- tech_stack: tecnologia adotada para produtos/ferramentas/soluções/serviços oferecido\n- description: breve descrição de uma frase com foco no que esta produtos/ferramentas/soluções/serviços entrega para o consumidor\n- api_available: verdadeiro se API REST, GraphQL, SDK ou acesso programático forem mencionados\n- language_support: Lista de linguagens de programação explicitamente suportadas\n- integration_capabilities: Lista de ferramentas/plataformas com as quais se integra\n"

/-- workflow_agent.py `DeveloperToolsPrompts.RECOMMENDATIONS_SYSTEM`. -/
def RECOMMENDATIONS_SYSTEM : String :=
  "Você é um pesquisador sênior que fornece recomendações técnicas rápidas e concisas.\nMantenha as respostas breves e práticas - no máximo 3 a 4 frases no total."

/-- workflow_agent.py `DeveloperToolsPrompts.recommendations_user`. -/
def recommendations_user (query company_data : String) : String :=
  "Consumer Query: " ++ query ++
  "\nFerramentas/Tecnologias Analisadas: " ++ company_data ++
  "\n\nForneça uma breve recomendação (máximo de 3 a 4 frases) abrangendo:\n- Qual ferramenta é a melhor e por quê\n- Principais considerações sobre custo/preço\n- Principal vantagem técnica\n- A melhor oferta, preços e condições\n\nNão são necessárias longas explicações."

/-- workflow_agent.py `FirecrawlService.search_companies` (no trailing
space in the augmented query, unlike the Agente_IA_Workflow variant);
returns `[]` on any exception. -/
def search_companies (c : Collaborators) (query : String) (num_results : Nat) :
    SearchOutcome :=
  match c.rawSearch (query ++ " preços, ofertas e valores") num_results with
  | Except.ok result => SearchOutcome.response result
  | Except.error _ => SearchOutcome.errorFallback

/-- workflow_agent.py `FirecrawlService.scrape_company_pages`. -/
def scrape_company_pages (c : Collaborators) (url : String) : Option ScrapedDoc :=
  match c.rawScrape url with
  | Except.ok result => some result
  | Except.error _ => none

/-- The scrape loop of workflow_agent.py `WorkflowAgent._extract_tools_step`
(lines 417-431): here the accumulator genuinely grows,
`all_content += scraped.markdown[:1500] + "\n\n"`, guarded by
`if scraped and hasattr(scraped, 'markdown')`. -/
def extractContentLoop (c : Collaborators) :
    List SearchResult → String → String
  | [], all_content => all_content
  | result :: rest, all_content =>
    let url := result.url.getD ""
    match scrape_company_pages c url with
    | some scraped =>
      extractContentLoop c rest (all_content ++ pySlice scraped.markdown 1500 ++ "\n\n")
    | none => extractContentLoop c rest all_content

/-- workflow_agent.py `WorkflowAgent._extract_tools_step`: the loop is
guarded by `if hasattr(search_results, 'data') and search_results.data`,
so the `[]` fallback never raises and the step is total. -/
def extract_tools_step (c : Collaborators) (state : ResearchState) :
    List String :=
  let article_query := state.query ++ " comparação de melhores alternativas"
  let search_results := search_companies c article_query 3
  let all_content :=
    match search_results with
    | SearchOutcome.response data => extractContentLoop c data ""
    | SearchOutcome.errorFallback => ""
  match c.llmInvoke TOOL_EXTRACTION_SYSTEM
      (tool_extraction_user state.query all_content) with
  | Except.ok content => parseToolNames content
  | Except.error _ => []

/-- workflow_agent.py `WorkflowAgent._analyze_company_content`: sentinel
analysis on failure uses `pricing_model="Desconhecido"` and
`description="Análise falhou"`. -/
def analyze_company_content (c : Collaborators) (company_name content : String) :
    CompanyAnalysis :=
  match c.structuredInvoke TOOL_ANALYSIS_SYSTEM
      (tool_analysis_user company_name content) with
  | Except.ok analysis => analysis
  | Except.error _ =>
    { pricing_model := "Desconhecido"
      is_open_source := none
      tech_stack := []
      description := "Análise falhou"
      api_available := none
      language_support := []
      integration_capabilities := [] }

/-- The per-candidate body of workflow_agent.py `WorkflowAgent._research_step`
(lines 542-593): guarded by
`if hasattr(tool_search_results, 'data') and tool_search_results.data`,
so both the `[]` fallback and an empty `data` list skip the candidate. -/
def processCandidate (c : Collaborators) (tool_name : String) :
    Option CompanyInfo :=
  match search_companies c (tool_name ++ " site oficial") 1 with
  | SearchOutcome.errorFallback => none
  | SearchOutcome.response [] => none
  | SearchOutcome.response (result :: _) =>
    let url := result.url.getD ""
    let company : CompanyInfo :=
      { name := tool_name
        description := result.markdown.getD ""
        website := url }
    match scrape_company_pages c url with
    | none => some company
    | some scraped =>
      let content := scraped.markdown
      let analysis := analyze_company_content c company.name content
      some
        { company with
          pricing_model := some analysis.pricing_model
          is_open_source := analysis.is_open_source
          tech_stack := analysis.tech_stack
          description := analysis.description
          api_available := analysis.api_available
          language_support := analysis.language_support
          integration_capabilities := analysis.integration_capabilities }

/-- The candidate loop of `WorkflowAgent._research_step` (total). -/
def researchLoop (c : Collaborators) : List String → List CompanyInfo
  | [] => []
  | tool_name :: rest =>
    match processCandidate c tool_name with
    | none => researchLoop c rest
    | some company => company :: researchLoop c rest

/-- The fallback candidate derivation of `WorkflowAgent._research_step`
(line 523): `result.get("metadata", {}).get("title", result.get("title", "Unknown"))`. -/
def fallback_tool_names (data : List SearchResult) : List String :=
  data.map (fun result => result.metadataTitle.getD (result.title.getD "Unknown"))

/-- workflow_agent.py `WorkflowAgent._research_step`: total; the fallback
search is guarded by `hasattr` + truthiness, with `tool_names = []` when
it fails. -/
def research_step (c : Collaborators) (state : ResearchState) :
    List CompanyInfo :=
  let extracted_tools := state.extracted_tools
  let tool_names :=
    if extracted_tools.isEmpty then
      match search_companies c state.query 4 with
      | SearchOutcome.response data =>
        if data.isEmpty then [] else fallback_tool_names data
      | SearchOutcome.errorFallback => []
    else extracted_tools.take 4
  researchLoop c tool_names

/-- workflow_agent.py `WorkflowAgent._analyze_step`: the LLM call is
inside `try`, and on failure `analysis` is set to the fixed fallback
string. -/
def analyze_step (c : Collaborators) (state : ResearchState) : String :=
  let company_data :=
    String.intercalate ", " (state.companies.map CompanyInfo.json)
  match c.llmInvoke RECOMMENDATIONS_SYSTEM
      (recommendations_user state.query company_data) with
  | Except.ok content => content
  | Except.error _ => "Não foi possível gerar recomendações no momento."

end AgentsWorkflowAgent

/-
  Concrete collaborator behaviours and records used to evaluate the
  pipeline on explicit inputs, plus the specification predicates the
  theorems below refer to.
-/

/-- A search hit carrying only a URL. -/
def rProbe : SearchResult := { url := some "https://exemplo.com" }

/-- A search hit with URL and a pre-rendered markdown snippet. -/
def rSnippet : SearchResult :=
  { url := some "https://nubank.com.br", markdown := some "Banco digital brasileiro" }

/-- A search hit whose metadata carries a title. -/
def rTitled : SearchResult := { metadataTitle := some "Amazon" }

/-- A search hit with no title anywhere. -/
def rUntitled : SearchResult := {}

/-- Behaviour probing stage 1: one search hit, scraping succeeds with
non-empty content, the extraction LLM answers only when the human
message is the stage-1 prompt built over the EMPTY context blob, and it
fails on any other prompt. -/
def cProbe : Collaborators :=
  { rawSearch := fun _ _ => Except.ok [rProbe]
    rawScrape := fun _ => Except.ok { markdown := "conteúdo raspado" }
    llmInvoke := fun _ user =>
      if user = AgenteIAWorkflow.tool_extraction_user "consulta" "" then
        Except.ok "ToolA"
      else Except.error ()
    structuredInvoke := fun _ _ => Except.error () }

/-- Behaviour where search always succeeds with one hit, scraping always
fails, the structured extractor always fails, and the plain LLM succeeds
only for the stage-1 system prompt — so the stage-3 generation call
raises. -/
def cGenFail : Collaborators :=
  { rawSearch := fun _ _ => Except.ok [rSnippet]
    rawScrape := fun _ => Except.error ()
    llmInvoke := fun system _ =>
      if system = AgenteIAWorkflow.TOOL_EXTRACTION_SYSTEM then Except.ok "Nubank"
      else Except.error ()
    structuredInvoke := fun _ _ => Except.error () }

/-- Behaviour where every underlying search call raises, so
`search_companies` always returns its `[]` fallback; the plain LLM
succeeds. -/
def cSearchDown : Collaborators :=
  { rawSearch := fun _ _ => Except.error ()
    rawScrape := fun _ => Except.error ()
    llmInvoke := fun _ _ => Except.ok "FerramentaX"
    structuredInvoke := fun _ _ => Except.error () }

/-- Behaviour where every search succeeds but returns an empty result
list (a truthy response object with `data == []`). -/
def cEmptyData : Collaborators :=
  { rawSearch := fun _ _ => Except.ok []
    rawScrape := fun _ => Except.error ()
    llmInvoke := fun _ _ => Except.error ()
    structuredInvoke := fun _ _ => Except.error () }

/-- Behaviour where the candidate search yields a hit with a rich
markdown snippet, scraping succeeds, but structured extraction always
fails. -/
def cDowngrade : Collaborators :=
  { rawSearch := fun _ _ => Except.ok [rSnippet]
    rawScrape := fun _ => Except.ok { markdown := "página do site" }
    llmInvoke := fun _ _ => Except.ok "Nubank"
    structuredInvoke := fun _ _ => Except.error () }

/-- Behaviour for the stage-2 fallback path: the 4-result direct search
returns one titled and one untitled hit, per-candidate searches return
`rSnippet`, scraping fails. -/
def cFallbackOk : Collaborators :=
  { rawSearch := fun _ n =>
      if n = 4 then Except.ok [rTitled, rUntitled] else Except.ok [rSnippet]
    rawScrape := fun _ => Except.error ()
    llmInvoke := fun _ _ => Except.error ()
    structuredInvoke := fun _ _ => Except.error () }

/-- A fully cooperative behaviour under which `Workflow.run` returns
normally: searches succeed with `rSnippet`, scraping fails (companies
keep creation defaults), both LLM entry points answer. -/
def cWitness : Collaborators :=
  { rawSearch := fun _ _ => Except.ok [rSnippet]
    rawScrape := fun _ => Except.error ()
    llmInvoke := fun _ _ => Except.ok "Nubank"
    structuredInvoke := fun _ _ => Except.error () }

/-- The `CompanyInfo` produced for candidate "Nubank" under `cDowngrade`:
creation put the search snippet in `description`, then the failed
extraction overwrote it with the sentinel. -/
def ciDowngraded : CompanyInfo :=
  { name := "Nubank"
    description := "Falhou"
    website := "https://nubank.com.br"
    pricing_model := some "Unknown" }

/-- The `CompanyInfo` produced for candidate "Nubank" under `cGenFail`
(no scrape, hence no analysis: creation values only). -/
def ciNoAnalysis : CompanyInfo :=
  { name := "Nubank"
    description := "Banco digital brasileiro"
    website := "https://nubank.com.br" }

/-- Fallback-path company for derived candidate "Amazon" under `cFallbackOk`. -/
def ciAmazon : CompanyInfo :=
  { name := "Amazon"
    description := "Banco digital brasileiro"
    website := "https://nubank.com.br" }

/-- Fallback-path company for the placeholder candidate "Unknown". -/
def ciUnknown : CompanyInfo :=
  { name := "Unknown"
    description := "Banco digital brasileiro"
    website := "https://nubank.com.br" }

/-- The final state of `Workflow.run cWitness "bancos digitais"`. -/
def stWitness : ResearchState :=
  { query := "bancos digitais"
    extracted_tools := ["Nubank"]
    companies := [ciNoAnalysis]
    analysis := some "Nubank" }

/-- The final state of `Workflow.run cWitness "consulta"`. -/
def stWitnessConsulta : ResearchState :=
  { query := "consulta"
    extracted_tools := ["Nubank"]
    companies := [ciNoAnalysis]
    analysis := some "Nubank" }

/-- The sentinel `CompanyAnalysis` substituted by workflow.py
`Workflow._analyze_company_content` on extractor failure. -/
def sentinelAnalysis : CompanyAnalysis :=
  { pricing_model := "Unknown"
    is_open_source := none
    tech_stack := []
    description := "Falhou"
    api_available := none
    language_support := []
    integration_capabilities := [] }

/-- The sentinel `CompanyAnalysis` substituted by workflow_agent.py
`WorkflowAgent._analyze_company_content` on extractor failure. -/
def agentSentinelAnalysis : CompanyAnalysis :=
  { pricing_model := "Desconhecido"
    is_open_source := none
    tech_stack := []
    description := "Análise falhou"
    api_available := none
    language_support := []
    integration_capabilities := [] }

/-- All analysis-derived fields of a `CompanyInfo` equal those of a given
`CompanyAnalysis` (the stage-2 field copy). -/
def analysisFieldsCopied (ci : CompanyInfo) (a : CompanyAnalysis) : Prop :=
  ci.pricing_model = some a.pricing_model ∧
  ci.is_open_source = a.is_open_source ∧
  ci.tech_stack = a.tech_stack ∧
  ci.description = a.description ∧
  ci.api_available = a.api_available ∧
  ci.language_support = a.language_support ∧
  ci.integration_capabilities = a.integration_capabilities

/-- All optional / list fields of a `CompanyInfo` other than
`description` are still at their type's zero-value. -/
def analysisFieldsAtDefaults (ci : CompanyInfo) : Prop :=
  ci.pricing_model = none ∧
  ci.is_open_source = none ∧
  ci.tech_stack = [] ∧
  ci.api_available = none ∧
  ci.language_support = [] ∧
  ci.integration_capabilities = [] ∧
  ci.competitors = [] ∧
  ci.developer_experience_rating = none

/-- What stage 2 guarantees for a produced `CompanyInfo`, as a function
of whether its website scrape succeeded: defaults kept on scrape
failure, the (successful or sentinel) analysis copied wholesale on
scrape success. -/
def postScrapeSpec (c : Collaborators) (tool_name : String) (ci : CompanyInfo) : Prop :=
  match AgenteIAWorkflow.scrape_company_pages c ci.website with
  | none => analysisFieldsAtDefaults ci
  | some doc =>
    analysisFieldsCopied ci (AgenteIAWorkflow.analyze_company_content c tool_name doc.markdown)

/-- C1: in workflow.py stage 1 the claim fails — under `cProbe` the sole
search hit's scrape succeeds with non-empty content, yet the accumulator
loop returns the empty blob (line 94 discards the concatenation), and
the extraction LLM is invoked with the prompt built over the EMPTY blob
(the call succeeds precisely because the blob is empty); the peer
`WorkflowAgent` loop does accumulate the 1500-character prefix. -/
theorem c1_stage1_blob_is_discarded :
    AgenteIAWorkflow.scrape_company_pages cProbe "https://exemplo.com"
        = some { markdown := "conteúdo raspado" } ∧
    AgenteIAWorkflow.extractContentLoop cProbe [rProbe] "" = "" ∧
    AgenteIAWorkflow.extract_tools_step cProbe { query := "consulta" }
        = Except.ok ["ToolA"] ∧
    AgentsWorkflowAgent.extractContentLoop cProbe [rProbe] ""
        = "conteúdo raspado\n\n" :=
  ⟨rfl, rfl, rfl, rfl⟩

/-- C2: in workflow.py stage 3 there is no handler — under `cGenFail` the
recommendations call raises, `analyze_step` propagates the exception and
`run` itself fails instead of setting the fallback string; the peer
`WorkflowAgent._analyze_step` catches the same failure and substitutes
the fixed fallback text. -/
theorem c2_analyze_failure_propagates :
    AgenteIAWorkflow.analyze_step cGenFail { query := "q" }
        = Except.error PyError.llmError ∧
    AgenteIAWorkflow.run cGenFail "q" = Except.error PyError.llmError ∧
    AgentsWorkflowAgent.analyze_step cGenFail { query := "q" }
        = "Não foi possível gerar recomendações no momento." :=
  ⟨rfl, rfl, rfl⟩

/-- C3: in workflow.py stage 1 the search-provider error fallback is NOT
absorbed — under `cSearchDown` the service returns its `[]` fallback and
the step raises `AttributeError` on `search_results.data`, so the
pipeline does not proceed to stage 2; the peer `WorkflowAgent` step
guards with `hasattr` and degrades to the LLM call instead. -/
theorem c3_extract_step_raises_on_search_fallback :
    AgenteIAWorkflow.search_companies cSearchDown "qualquer consulta" 3
        = SearchOutcome.errorFallback ∧
    AgenteIAWorkflow.extract_tools_step cSearchDown { query := "consulta" }
        = Except.error PyError.attributeError ∧
    AgentsWorkflowAgent.extract_tools_step cSearchDown { query := "consulta" }
        = ["FerramentaX"] :=
  ⟨rfl, rfl, rfl⟩

/-- C4: in workflow.py stage 2 a candidate whose official-site search
returns a successful response with zero results is not skipped — the
truthy response passes `if tool_search_results:` and `data[0]` raises
`IndexError`, aborting the whole stage (under `cEmptyData`); only the
`[]` error fallback is skipped (under `cSearchDown`); the peer
`WorkflowAgent` skips both. -/
theorem c4_research_step_raises_on_empty_data :
    AgenteIAWorkflow.processCandidate cEmptyData "Nubank"
        = Except.error PyError.indexError ∧
    AgenteIAWorkflow.research_step cEmptyData
        { query := "q", extracted_tools := ["Nubank"] }
        = Except.error PyError.indexError ∧
    AgenteIAWorkflow.processCandidate cSearchDown "Nubank" = Except.ok none ∧
    AgentsWorkflowAgent.processCandidate cEmptyData "Nubank" = none :=
  ⟨rfl, rfl, rfl, rfl⟩

/-- C6: the stage-2 fallback derivation works as claimed when the direct
search returns data (candidates from `metadata.title` with placeholder
"Unknown", companies produced), but when the direct search returns its
`[]` error fallback workflow.py raises `AttributeError` on
`search_results.data` and no companies list is produced; the peer
`WorkflowAgent` degrades to an empty list there. -/
theorem c6_research_fallback_search :
    AgenteIAWorkflow.fallback_tool_names [rTitled, rUntitled]
        = ["Amazon", "Unknown"] ∧
    AgenteIAWorkflow.research_step cFallbackOk { query := "bancos digitais" }
        = Except.ok [ciAmazon, ciUnknown] ∧
    AgenteIAWorkflow.research_step cSearchDown { query := "bancos digitais" }
        = Except.error PyError.attributeError ∧
    AgentsWorkflowAgent.research_step cSearchDown { query := "bancos digitais" }
        = [] :=
  ⟨rfl, rfl, rfl, rfl⟩

/-- C5 counterexample: under `cDowngrade` the candidate search populates
`description` with the snippet "Banco digital brasileiro", scraping
succeeds, the structured extraction fails — and the failed call DOES
replace the populated description with the lower-information sentinel
"Falhou", refuting "never downgraded". -/
theorem c5_counterexample_description_downgraded :
    rSnippet.markdown.getD "" = "Banco digital brasileiro" ∧
    cDowngrade.structuredInvoke = (fun _ _ => Except.error ()) ∧
    AgenteIAWorkflow.processCandidate cDowngrade "Nubank"
        = Except.ok (some ciDowngraded) ∧
    ciDowngraded.description = "Falhou" :=
  ⟨rfl, rfl, rfl, rfl⟩

/-- Helper: inverting a successful `search_companies` call of the
Agente_IA_Workflow service back to the underlying SDK call. -/
theorem search_companies_response_inv (c : Collaborators) (q : String) (n : Nat)
    (data : List SearchResult)
    (h : AgenteIAWorkflow.search_companies c q n = SearchOutcome.response data) :
    c.rawSearch (q ++ " preços, ofertas e valores ") n = Except.ok data := by
  unfold AgenteIAWorkflow.search_companies at h
  cases hr : c.rawSearch (q ++ " preços, ofertas e valores ") n with
  | ok r => rw [hr] at h; simp_all
  | error e => rw [hr] at h; simp_all

/-- Helper: every `CompanyInfo` produced by workflow.py's per-candidate
body carries the candidate name, and its analysis-derived fields are the
creation defaults or the copied analysis according to the scrape result. -/
theorem processCandidate_fields (c : Collaborators) (tool_name : String)
    (ci : CompanyInfo)
    (h : AgenteIAWorkflow.processCandidate c tool_name = Except.ok (some ci)) :
    ci.name = tool_name ∧ postScrapeSpec c tool_name ci := by
  unfold AgenteIAWorkflow.processCandidate at h
  cases hs : AgenteIAWorkflow.search_companies c (tool_name ++ " site oficial") 1 with
  | errorFallback => rw [hs] at h; simp_all
  | response data =>
    rw [hs] at h
    cases data with
    | nil => simp_all
    | cons result rest =>
      cases hscrape : AgenteIAWorkflow.scrape_company_pages c (result.url.getD "") with
      | none =>
        simp only [hscrape] at h
        injection h with h
        injection h with h
        subst h
        refine ⟨rfl, ?_⟩
        unfold postScrapeSpec
        rw [show AgenteIAWorkflow.scrape_company_pages c
              (result.url.getD "") = none from hscrape]
        exact ⟨rfl, rfl, rfl, rfl, rfl, rfl, rfl, rfl⟩
      | some scraped =>
        simp only [hscrape] at h
        injection h with h
        injection h with h
        subst h
        refine ⟨rfl, ?_⟩
        unfold postScrapeSpec
        rw [show AgenteIAWorkflow.scrape_company_pages c
              (result.url.getD "") = some scraped from hscrape]
        exact ⟨rfl, rfl, rfl, rfl, rfl, rfl, rfl⟩

/-- C5 (amended): once a `CompanyInfo` exists, `name` is the candidate
name and `website` the search-hit URL, never changed afterwards; the
analysis-derived fields keep their creation zero-values when the scrape
fails, and are overwritten wholesale by the (successful or sentinel)
analysis when the scrape succeeds — so a failed extraction does replace
the search-snippet description with the sentinel. -/
theorem c5_company_field_lifecycle (c : Collaborators) (tool_name : String)
    (ci : CompanyInfo)
    (h : AgenteIAWorkflow.processCandidate c tool_name = Except.ok (some ci)) :
    ci.name = tool_name ∧ postScrapeSpec c tool_name ci :=
  processCandidate_fields c tool_name ci h

/-- C5 witness: the theorem applied to the concrete run `cDowngrade`,
which produces `ciDowngraded` for candidate "Nubank". -/
theorem c5_company_field_lifecycle_witness :
    ciDowngraded.name = "Nubank" ∧ postScrapeSpec cDowngrade "Nubank" ciDowngraded :=
  c5_company_field_lifecycle cDowngrade "Nubank" ciDowngraded rfl

/-- C8 counterexample: under `cGenFail` the structured extractor always
fails, yet the candidate's scrape also fails, so its `CompanyInfo` keeps
the creation values — `description` is the search snippet, not the
sentinel "Falhou", and `pricing_model` is unset, not "Unknown" —
refuting "every CompanyInfo carries exactly this sentinel". -/
theorem c8_counterexample_no_scrape_keeps_creation_values :
    cGenFail.structuredInvoke = (fun _ _ => Except.error ()) ∧
    AgenteIAWorkflow.processCandidate cGenFail "Nubank"
        = Except.ok (some ciNoAnalysis) ∧
    ciNoAnalysis.description ≠ "Falhou" ∧
    ciNoAnalysis.pricing_model ≠ some "Unknown" :=
  ⟨rfl, rfl, by decide, by decide⟩

/-- C8 (amended): whenever the structured extraction fails, the
substituted analysis is EXACTLY the sentinel — "Unknown"/"Falhou" in
workflow.py, "Desconhecido"/"Análise falhou" in workflow_agent.py, both
tri-state booleans unset and all lists empty, never partially populated;
hence, if the extractor always fails, every `CompanyInfo` whose website
scrape succeeded carries exactly the sentinel in those fields (companies
whose scrape failed keep their creation values, per the counterexample). -/
theorem c8_sentinel_substitution_exact (c : Collaborators)
    (tool_name content : String) (ci : CompanyInfo) (doc : ScrapedDoc)
    (hfail : ∀ s u, c.structuredInvoke s u = Except.error ()) :
    AgenteIAWorkflow.analyze_company_content c tool_name content = sentinelAnalysis ∧
    AgentsWorkflowAgent.analyze_company_content c tool_name content = agentSentinelAnalysis ∧
    (AgenteIAWorkflow.processCandidate c tool_name = Except.ok (some ci) →
     AgenteIAWorkflow.scrape_company_pages c ci.website = some doc →
     ci.description = "Falhou" ∧ ci.pricing_model = some "Unknown" ∧
     ci.is_open_source = none ∧ ci.api_available = none ∧ ci.tech_stack = [] ∧
     ci.language_support = [] ∧ ci.integration_capabilities = []) := by
  have hsent : ∀ cont, AgenteIAWorkflow.analyze_company_content c tool_name cont
      = sentinelAnalysis := by
    intro cont
    unfold AgenteIAWorkflow.analyze_company_content
    rw [hfail]
    rfl
  have hsentAg : AgentsWorkflowAgent.analyze_company_content c tool_name content
      = agentSentinelAnalysis := by
    unfold AgentsWorkflowAgent.analyze_company_content
    rw [hfail]
    rfl
  refine ⟨hsent content, hsentAg, ?_⟩
  intro hp hscrape
  obtain ⟨-, hspec⟩ := processCandidate_fields c tool_name ci hp
  unfold postScrapeSpec at hspec
  rw [hscrape] at hspec
  have hspec2 : analysisFieldsCopied ci
      (AgenteIAWorkflow.analyze_company_content c tool_name doc.markdown) := hspec
  rw [hsent doc.markdown] at hspec2
  obtain ⟨hpm, hos, hts, hdesc, hapi, hlang, hint⟩ := hspec2
  exact ⟨hdesc, hpm, hos, hapi, hts, hlang, hint⟩

/-- C8 witness: the theorem applied to the concrete run `cDowngrade`
(extractor always fails, scrape succeeds), whose candidate "Nubank"
yields `ciDowngraded` carrying exactly the sentinel fields. -/
theorem c8_sentinel_substitution_exact_witness :
    AgenteIAWorkflow.analyze_company_content cDowngrade "Nubank" "página do site"
        = sentinelAnalysis ∧
    AgentsWorkflowAgent.analyze_company_content cDowngrade "Nubank" "página do site"
        = agentSentinelAnalysis ∧
    (ciDowngraded.description = "Falhou" ∧
     ciDowngraded.pricing_model = some "Unknown" ∧
     ciDowngraded.is_open_source = none ∧ ciDowngraded.api_available = none ∧
     ciDowngraded.tech_stack = [] ∧ ciDowngraded.language_support = [] ∧
     ciDowngraded.integration_capabilities = []) := by
  have h := c8_sentinel_substitution_exact cDowngrade "Nubank" "página do site"
    ciDowngraded { markdown := "página do site" } (fun _ _ => rfl)
  exact ⟨h.1, h.2.1, h.2.2 rfl rfl⟩

/-- Helper: the stage-2 candidate loop of workflow.py appends at most one
company per candidate. -/
theorem researchLoop_length_le (c : Collaborators) :
    ∀ (names : List String) (comps : List CompanyInfo),
      AgenteIAWorkflow.researchLoop c names = Except.ok comps →
      comps.length ≤ names.length := by
  intro names
  induction names with
  | nil =>
    intro comps h
    unfold AgenteIAWorkflow.researchLoop at h
    injection h with h
    rw [← h]
    exact Nat.le_refl 0
  | cons tool_name rest ih =>
    intro comps h
    unfold AgenteIAWorkflow.researchLoop at h
    cases hp : AgenteIAWorkflow.processCandidate c tool_name with
    | error e => rw [hp] at h; simp_all
    | ok o =>
      rw [hp] at h
      cases o with
      | none => exact Nat.le_succ_of_le (ih comps h)
      | some company =>
        cases hl : AgenteIAWorkflow.researchLoop c rest with
        | error e => rw [hl] at h; simp_all
        | ok tail =>
          rw [hl] at h
          injection h with h
          rw [← h]
          exact Nat.succ_le_succ (ih tail hl)

/-- Helper: workflow.py's stage 2 never returns more than 4 companies,
provided the underlying search respects its `limit=4` bound. -/
theorem research_step_length_le (c : Collaborators) (st : ResearchState)
    (hbound : ∀ q r, c.rawSearch q 4 = Except.ok r → r.length ≤ 4)
    (comps : List CompanyInfo)
    (h : AgenteIAWorkflow.research_step c st = Except.ok comps) :
    comps.length ≤ 4 := by
  unfold AgenteIAWorkflow.research_step at h
  cases hsel : (if st.extracted_tools.isEmpty then
      (AgenteIAWorkflow.search_companies c st.query 4).dataAttr.map
        AgenteIAWorkflow.fallback_tool_names
    else Except.ok (st.extracted_tools.take 4)) with
  | error e => rw [hsel] at h; simp_all
  | ok tool_names =>
    rw [hsel] at h
    have hlen : tool_names.length ≤ 4 := by
      by_cases he : st.extracted_tools.isEmpty
      · rw [if_pos he] at hsel
        cases hso : AgenteIAWorkflow.search_companies c st.query 4 with
        | errorFallback =>
          rw [hso] at hsel
          simp [SearchOutcome.dataAttr, Except.map] at hsel
        | response data =>
          rw [hso] at hsel
          simp only [SearchOutcome.dataAttr, Except.map] at hsel
          injection hsel with hsel
          have hdata := hbound _ data (search_companies_response_inv c st.query 4 data hso)
          rw [← hsel]
          simpa [AgenteIAWorkflow.fallback_tool_names] using hdata
      · rw [if_neg he] at hsel
        injection hsel with hsel
        rw [← hsel]
        simp
    exact Nat.le_trans (researchLoop_length_le c tool_names comps h) hlen

/-- C7: for every collaborator behaviour whose search respects its
`limit=4` bound, a normally-returning `Workflow.run` yields at most 4
companies: stage 2 processes at most the first 4 extracted tools or at
most 4 fallback-search hits, one company at most per candidate. -/
theorem c7_companies_at_most_four (c : Collaborators) (query : String)
    (st : ResearchState)
    (hbound : ∀ q r, c.rawSearch q 4 = Except.ok r → r.length ≤ 4)
    (hrun : AgenteIAWorkflow.run c query = Except.ok st) :
    st.companies.length ≤ 4 := by
  unfold AgenteIAWorkflow.run at hrun
  split at hrun
  · exact absurd hrun (by simp)
  next tools h1 =>
    split at hrun
    · exact absurd hrun (by simp)
    next comps h2 =>
      split at hrun
      · exact absurd hrun (by simp)
      next analysis h3 =>
        injection hrun with hrun
        rw [← hrun]
        exact research_step_length_le c _ hbound comps h2

/-- C7 witness: under the cooperative behaviour `cWitness` (whose search
always returns a single hit, hence respects the bound) the run returns
`stWitness`, which has one company. -/
theorem c7_companies_at_most_four_witness :
    stWitness.companies.length ≤ 4 :=
  c7_companies_at_most_four cWitness "bancos digitais" stWitness
    (fun q r h => by injection h with h; rw [← h]; exact Nat.le_of_lt_succ (by decide))
    rfl

/-- C9: no stage writes `query`, so for every query and every
collaborator behaviour, a normally-returning `Workflow.run` preserves it:
`run(query).query = query`. -/
theorem c9_query_preserved (c : Collaborators) (query : String)
    (st : ResearchState)
    (hrun : AgenteIAWorkflow.run c query = Except.ok st) :
    st.query = query := by
  unfold AgenteIAWorkflow.run at hrun
  split at hrun
  · exact absurd hrun (by simp)
  next tools h1 =>
    split at hrun
    · exact absurd hrun (by simp)
    next comps h2 =>
      split at hrun
      · exact absurd hrun (by simp)
      next analysis h3 =>
        injection hrun with hrun
        rw [← hrun]

/-- C9 witness: the theorem applied to the concrete run
`Workflow.run cWitness "consulta"`. -/
theorem c9_query_preserved_witness : stWitnessConsulta.query = "consulta" :=
  c9_query_preserved cWitness "consulta" stWitnessConsulta rfl

/-- C10: `ResearchState.search_results` is carried by the model but never
written by any stage; every state returned by `Workflow.run` has it equal
to the empty list. -/
theorem c10_search_results_never_written (c : Collaborators) (query : String)
    (st : ResearchState)
    (hrun : AgenteIAWorkflow.run c query = Except.ok st) :
    st.search_results = [] := by
  unfold AgenteIAWorkflow.run at hrun
  split at hrun
  · exact absurd hrun (by simp)
  next tools h1 =>
    split at hrun
    · exact absurd hrun (by simp)
    next comps h2 =>
      split at hrun
      · exact absurd hrun (by simp)
      next analysis h3 =>
        injection hrun with hrun
        rw [← hrun]

/-- C10 witness: the theorem applied to the concrete run
`Workflow.run cWitness "bancos digitais"`. -/
theorem c10_search_results_never_written_witness :
    stWitness.search_results = [] :=
  c10_search_results_never_written cWitness "bancos digitais" stWitness rfl
